import Mathlib

/-!
Verification development for the prices_parser repository.

The definitions below are a shallow embedding of the Python source in
`src/proxy_manager.py` (proxy registry, weighted selection, failure/success
feedback), `src/blocking_experiments.py` (`BlockDetector.is_blocked`) and
`src/scraper_with_auto_proxy.py` (`SmartRetailScraper.fetch_page` and
`SmartRetailScraper._check_if_blocked`).

Modelling conventions:
  - time (`datetime.now()`) is a `Nat` parameter `now`; `timedelta(seconds=c)`
    becomes `+ c`; within one modelled call the clock is held constant;
  - `response.text` is a `String`; Python `str.lower()` is `lowerStr`
    (character-wise `Char.toLower`, which agrees with Python on the ASCII
    denylist phrases), `pat in content` is `strContainsPat`;
  - the manager's `current_proxy` object reference is an index into the
    `proxies` list, so aliased mutation becomes `modifyIdx` at that index;
  - `random.choices(working, weights)` / `random.choice(working)` draw from
    the whole healthy candidate list (every weight `1/(1+failures)` and the
    optional latency factor are strictly positive, so the support of the
    draw is the entire candidate list); the draw is modelled by an oracle
    `draw : Nat` selecting index `draw % length` among the candidates;
  - `response_time` (a Python float used only inside the selection weights,
    which the draw oracle abstracts) is carried as a `Nat` sample;
  - network traffic is a script `Nat → Outcome` giving the outcome of each
    successive `session.get` call; exceptions (`Timeout`, `ConnectionError`,
    generic) all take the same code path and are one constructor carrying
    the message used for `last_error`.
-/

/-! ## String helpers (Python `str.lower` and `in`) -/

/-- Character-list version of Python `s.startswith(pat)`. -/
def startsWithList : List Char → List Char → Bool
  | _, [] => true
  | [], _ :: _ => false
  | c :: cs, d :: ds => c == d && startsWithList cs ds

/-- Character-list version of Python `pat in hay` (substring containment). -/
def containsList : List Char → List Char → Bool
  | [], pat => pat.isEmpty
  | c :: cs, pat => startsWithList (c :: cs) pat || containsList cs pat

/-- Python `s.lower()` modelled character-wise. -/
def lowerStr (s : String) : String := ⟨s.data.map Char.toLower⟩

/-- Python `pat in hay` on strings. -/
def strContainsPat (hay pat : String) : Bool := containsList hay.data pat.data

/-- Python `s.startswith(pat)` on strings. -/
def startsWithStr (s pat : String) : Bool := startsWithList s.data pat.data

theorem lowerStr_length (s : String) : (lowerStr s).length = s.length := by
  cases s with
  | mk d => simp [lowerStr, String.length]

/-! ## Block detection

`BlockDetector.is_blocked` from `src/blocking_experiments.py` (returns the
`(is_blocked, reason)` pair) and `SmartRetailScraper._check_if_blocked` from
`src/scraper_with_auto_proxy.py` (returns only the boolean; its short-response
check merely logs and never blocks). -/

/-- `BlockDetector.BLOCK_STATUS_CODES`. -/
def BLOCK_STATUS_CODES : List Nat := [403, 429, 503]

/-- `BlockDetector.BLOCK_PATTERNS`, in source order. -/
def BLOCK_PATTERNS : List String :=
  ["access denied", "blocked", "captcha", "cloudflare",
   "security check", "rate limit", "too many requests",
   "bot detection", "suspicious activity"]

/-- `BlockDetector.is_blocked(response)`: status-code rule, then first
matching denylist phrase, then the 200-and-short-body heuristic. -/
def isBlocked (status : Nat) (body : String) : Bool × String :=
  if status ∈ BLOCK_STATUS_CODES then
    (true, "Status " ++ toString status)
  else
    let content := lowerStr body
    match BLOCK_PATTERNS.find? (fun pat => strContainsPat content pat) with
    | some pat => (true, "Pattern: " ++ pat)
    | none =>
      if status = 200 ∧ content.length < 500 then
        (true, "Suspicious short response: " ++ toString content.length ++ " bytes")
      else
        (false, "OK")

/-- HTTP response as consumed by the detector: status code, body text and the
elapsed transfer time (the detector reads only the first two fields). -/
structure HttpResponse where
  status : Nat
  body : String
  elapsed : Nat
  deriving DecidableEq

/-- `BlockDetector.is_blocked` applied to a response object. -/
def isBlockedResp (r : HttpResponse) : Bool × String := isBlocked r.status r.body

/-- Block indicator phrases of `SmartRetailScraper._check_if_blocked`,
in source order. -/
def BLOCK_INDICATORS : List String :=
  ["access denied", "blocked", "captcha", "cloudflare",
   "security check", "rate limit", "too many requests",
   "bot detection", "suspicious activity", "unusual traffic",
   "please verify", "challenge-platform"]

/-- `SmartRetailScraper._check_if_blocked(response)`: block status codes,
then indicator phrases; the final short-response branch of the source only
logs a warning and does not block. -/
def checkIfBlocked (status : Nat) (body : String) : Bool :=
  if status ∈ [403, 429, 503] then
    true
  else
    let content := lowerStr body
    BLOCK_INDICATORS.any (fun ind => strContainsPat content ind)

/-! ## Proxy registry (`src/proxy_manager.py`) -/

/-- `ProxyInfo` dataclass. -/
structure ProxyInfo where
  url : String
  protocol : String
  failures : Nat
  last_used : Option Nat
  last_failure : Option Nat
  response_time : Nat
  is_working : Bool
  blocked_until : Option Nat
  deriving DecidableEq

/-- `ProxyInfo.__post_init__`: transport kind inferred from the URL scheme. -/
def inferProtocol (url : String) : String :=
  if startsWithStr url "socks5://" then "socks5"
  else if startsWithStr url "https://" then "https"
  else "http"

/-- A freshly constructed `ProxyInfo(url=...)` with dataclass defaults. -/
def mkProxyInfo (url : String) : ProxyInfo :=
  ⟨url, inferProtocol url, 0, none, none, 0, true, none⟩

/-- `ProxyRotationManager` state: proxy pool, configuration, and the
`current_proxy` reference (as an index into `proxies`). -/
structure PMState where
  proxies : List ProxyInfo
  maxFailures : Nat
  cooldownTime : Nat
  currentProxy : Option Nat
  blockDetected : Bool
  deriving DecidableEq

/-- `ProxyRotationManager.add_proxy`. -/
def addProxy (m : PMState) (url : String) : PMState :=
  { m with proxies := m.proxies ++ [mkProxyInfo url] }

/-- In-place mutation of the list element at index `i` (Python mutates the
aliased `ProxyInfo` object held in `self.proxies`). -/
def modifyIdx : List α → Nat → (α → α) → List α
  | [], _, _ => []
  | a :: as, 0, f => f a :: as
  | a :: as, n + 1, f => a :: modifyIdx as n f

/-- Python truthiness test `proxy.blocked_until and proxy.blocked_until > now`
(datetime objects are always truthy, `None` is falsy). -/
def blockedUntilActive (p : ProxyInfo) (now : Nat) : Bool :=
  match p.blocked_until with
  | some t => decide (now < t)
  | none => false

/-- The per-proxy filter of `get_working_proxies`: skip when the failure
counter reached `max_failures`, skip while `blocked_until` lies strictly in
the future, otherwise keep exactly the `is_working` proxies. -/
def isWorkingFilter (maxF now : Nat) (p : ProxyInfo) : Bool :=
  if maxF ≤ p.failures then false
  else if blockedUntilActive p now then false
  else p.is_working

/-- `ProxyRotationManager.get_working_proxies`. -/
def getWorkingProxies (m : PMState) (now : Nat) : List ProxyInfo :=
  m.proxies.filter (isWorkingFilter m.maxFailures now)

/-- Healthy proxies paired with their index into `proxies` (the index stands
for the Python object reference that `get_working_proxies` returns). -/
def healthyPairs (maxF now : Nat) : List ProxyInfo → Nat → List (Nat × ProxyInfo)
  | [], _ => []
  | p :: ps, i =>
    if isWorkingFilter maxF now p then
      (i, p) :: healthyPairs maxF now ps (i + 1)
    else
      healthyPairs maxF now ps (i + 1)

/-- Indices of the healthy proxies. -/
def workingIdx (m : PMState) (now : Nat) : List Nat :=
  (healthyPairs m.maxFailures now m.proxies 0).map Prod.fst

/-- The values behind `healthyPairs` are exactly `get_working_proxies`. -/
theorem healthyPairs_map_snd (maxF now : Nat) :
    ∀ (ps : List ProxyInfo) (i : Nat),
      (healthyPairs maxF now ps i).map Prod.snd = ps.filter (isWorkingFilter maxF now) := by
  intro ps
  induction ps with
  | nil => intro i; simp [healthyPairs]
  | cons p ps ih =>
    intro i
    by_cases h : isWorkingFilter maxF now p
    · simp [healthyPairs, h, List.filter_cons, ih]
    · simp [healthyPairs, h, List.filter_cons, ih]

/-- Every pair produced by `healthyPairs` points back into the pool. -/
theorem healthyPairs_mem_get? (maxF now : Nat) :
    ∀ (ps : List ProxyInfo) (i0 j : Nat) (p : ProxyInfo),
      (j, p) ∈ healthyPairs maxF now ps i0 →
      i0 ≤ j ∧ ps.get? (j - i0) = some p := by
  intro ps
  induction ps with
  | nil => intro i0 j p h; simp [healthyPairs] at h
  | cons q ps ih =>
    intro i0 j p h
    by_cases hq : isWorkingFilter maxF now q
    · simp only [healthyPairs, hq, if_pos, List.mem_cons] at h
      rcases h with h | h
      · rcases Prod.mk.injEq .. ▸ h with ⟨h1, h2⟩
        subst h1; subst h2
        simp
      · rcases ih (i0 + 1) j p h with ⟨hle, hget⟩
        refine ⟨by omega, ?_⟩
        have : j - i0 = (j - (i0 + 1)) + 1 := by omega
        rw [this]
        simpa using hget
    · simp only [healthyPairs, hq, if_neg, Bool.false_eq_true, not_false_eq_true] at h
      rcases ih (i0 + 1) j p h with ⟨hle, hget⟩
      refine ⟨by omega, ?_⟩
      have : j - i0 = (j - (i0 + 1)) + 1 := by omega
      rw [this]
      simpa using hget

/-- `ProxyRotationManager.get_next_proxy`: compute the healthy candidates; if
none, return `none` leaving the state untouched; otherwise draw one candidate
(the `draw` oracle abstracts `random.choices` with the strictly positive
weights, whose support is the whole candidate list), record it as
`current_proxy` and stamp its `last_used`. -/
def getNextProxy (m : PMState) (now draw : Nat) : Option Nat × PMState :=
  let w := workingIdx m now
  match w.get? (draw % w.length) with
  | none => (none, m)
  | some j =>
    (some j,
     { m with
       currentProxy := some j,
       proxies := modifyIdx m.proxies j (fun p => { p with last_used := some now }) })

/-- Argument resolution shared by `mark_proxy_failed`/`mark_proxy_success`:
an explicit proxy argument, else the current proxy, else nothing. -/
def resolveTarget (m : PMState) (arg : Option Nat) : Option Nat :=
  match arg with
  | some i => some i
  | none => m.currentProxy

/-- Body of `mark_proxy_failed` on the resolved proxy object: increment
`failures`, stamp `last_failure`, apply the cooldown window when requested,
and clear `is_working` once the counter reaches `max_failures`. -/
def failUpdate (maxF cooldownTime now : Nat) (cooldown : Bool) (p : ProxyInfo) : ProxyInfo :=
  let p1 := { p with failures := p.failures + 1, last_failure := some now }
  let p2 := if cooldown then { p1 with blocked_until := some (now + cooldownTime) } else p1
  if maxF ≤ p2.failures then { p2 with is_working := false } else p2

/-- Body of `mark_proxy_success` on the resolved proxy object: decrement a
positive failure counter by one, set `is_working`, clear `blocked_until`. -/
def succUpdate (p : ProxyInfo) : ProxyInfo :=
  let p1 := if 0 < p.failures then { p with failures := p.failures - 1 } else p
  { p1 with is_working := true, blocked_until := none }

/-- `ProxyRotationManager.mark_proxy_failed(proxy, cooldown)`: no-op when no
target resolves, otherwise `failUpdate` on the target object. -/
def markProxyFailed (m : PMState) (arg : Option Nat) (cooldown : Bool) (now : Nat) : PMState :=
  match resolveTarget m arg with
  | none => m
  | some i =>
    { m with
      proxies := modifyIdx m.proxies i (failUpdate m.maxFailures m.cooldownTime now cooldown) }

/-- `ProxyRotationManager.mark_proxy_success(proxy)`: no-op when no target
resolves, otherwise `succUpdate` on the target object. -/
def markProxySuccess (m : PMState) (arg : Option Nat) : PMState :=
  match resolveTarget m arg with
  | none => m
  | some i =>
    { m with proxies := modifyIdx m.proxies i succUpdate }

/-- `ProxyRotationManager.handle_block`: penalize the current proxy with
cooldown (when one is set), then select a replacement. -/
def handleBlock (m : PMState) (now draw : Nat) : Option Nat × PMState :=
  let m1 := match m.currentProxy with
    | some i => markProxyFailed m (some i) true now
    | none => m
  getNextProxy m1 now draw

/-- N consecutive `mark_proxy_failed(proxy, cooldown=True)` calls on the
endpoint at index `i`. -/
def iterFail : Nat → PMState → Nat → Nat → PMState
  | 0, m, _, _ => m
  | n + 1, m, i, now => iterFail n (markProxyFailed m (some i) true now) i now

/-- k consecutive `mark_proxy_success(proxy)` calls on the endpoint at
index `i`. -/
def iterSuccess : Nat → PMState → Nat → PMState
  | 0, m, _ => m
  | k + 1, m, i => iterSuccess k (markProxySuccess m (some i)) i

/-! ## Basic lemmas about the registry operations -/

theorem modifyIdx_get? (l : List α) :
    ∀ (j i : Nat) (f : α → α),
      (modifyIdx l j f).get? i = if i = j then (l.get? i).map f else l.get? i := by
  induction l with
  | nil => intro j i f; simp [modifyIdx]
  | cons a as ih =>
    intro j i f
    cases j with
    | zero =>
      cases i with
      | zero => simp [modifyIdx]
      | succ n => simp [modifyIdx]
    | succ j =>
      cases i with
      | zero => simp [modifyIdx]
      | succ n => simpa [modifyIdx, Nat.succ_inj] using ih j n f

/-! ## The rotation controller (`SmartRetailScraper.fetch_page`) -/

/-- Outcome of one `session.get` call: a response, or a raised exception
(`Timeout`, `ConnectionError` and the generic handler share one code path;
the message is what feeds `last_error`). -/
inductive Outcome where
  | resp (status : Nat) (body : String)
  | exc (msg : String)
  deriving DecidableEq

/-- Which return site of `fetch_page` produced a failure (the Python function
returns `None` at each of them and logs the reason). -/
inductive FailReason where
  | notFound
  | noWorkingProxies
  | retriesExhausted (lastError : Option String)
  deriving DecidableEq

/-- Result of `fetch_page`: the body text on success, a tagged failure
otherwise. -/
inductive FetchResult where
  | success (body : String)
  | failure (r : FailReason)
  deriving DecidableEq

/-- Observable trace of one `fetch_page` call: its result, how many network
calls were made (`stats['requests']` increments), and the final proxy-manager
state (`none` when the scraper has no proxy manager). -/
structure FetchTrace where
  result : FetchResult
  attempts : Nat
  pm : Option PMState
  deriving DecidableEq

/-- One iteration of the `while retries <= max_retries` loop body: select a
proxy (falling back to a direct connection when none is available), perform
the request, then branch exactly as the source does on block detection,
status 200, status 404, other statuses, and exceptions. -/
inductive StepRes where
  | halt (r : FetchResult) (pm : Option PMState)
  | next (pm : Option PMState) (lastError : Option String)
  deriving DecidableEq

/-- The selection preamble of each loop iteration: when a proxy manager is
present, run `get_next_proxy` (its state effects included); a scraper without
a manager keeps the direct connection. -/
def selectPM (pm : Option PMState) (now d1 : Nat) : Option PMState :=
  match pm with
  | none => none
  | some m => some (getNextProxy m now d1).2

/-- The blocked branch of the loop body: with rotation enabled and a manager
present, `handle_block` penalizes the current proxy and re-selects — looping
when a replacement exists and returning the no-working-proxies failure when
none does; otherwise the source sleeps and retries without touching proxy
state. -/
def blockedBranch (autoRotate : Bool) (now d2 : Nat) (pm1 : Option PMState)
    (lastError : Option String) : StepRes :=
  match pm1, autoRotate with
  | some m, true =>
    match (handleBlock m now d2).1 with
    | some _ => .next (some (handleBlock m now d2).2) lastError
    | none => .halt (.failure .noWorkingProxies) (some (handleBlock m now d2).2)
  | some m, false => .next (some m) lastError
  | none, _ => .next none lastError

def fetchStep (autoRotate : Bool) (now d1 d2 : Nat) (outcome : Outcome)
    (pm : Option PMState) (lastError : Option String) : StepRes :=
  match outcome with
  | .exc msg =>
    .next ((selectPM pm now d1).map (fun m => markProxyFailed m none true now)) (some msg)
  | .resp status body =>
    if checkIfBlocked status body then
      blockedBranch autoRotate now d2 (selectPM pm now d1) lastError
    else if status = 200 then
      .halt (.success body) ((selectPM pm now d1).map (fun m => markProxySuccess m none))
    else if status = 404 then
      .halt (.failure .notFound) (selectPM pm now d1)
    else
      .next ((selectPM pm now d1).map (fun m => markProxyFailed m none true now))
        (some ("Status " ++ toString status))

/-- The retry loop. `fuel` is the number of remaining loop iterations
(`max_retries + 1 - retries`): every non-returning path of the source
increments `retries` by exactly one, and the loop exits with the
retries-exhausted failure once `retries > max_retries`. -/
def fetchLoop (autoRotate : Bool) (now : Nat) (draws draws2 : Nat → Nat)
    (script : Nat → Outcome) :
    Nat → Option PMState → Nat → Option String → FetchTrace
  | 0, pm, attempts, lastError =>
    ⟨.failure (.retriesExhausted lastError), attempts, pm⟩
  | fuel + 1, pm, attempts, lastError =>
    match fetchStep autoRotate now (draws attempts) (draws2 attempts)
        (script attempts) pm lastError with
    | .halt r pm1 => ⟨r, attempts + 1, pm1⟩
    | .next pm1 e1 =>
      fetchLoop autoRotate now draws draws2 script fuel pm1 (attempts + 1) e1

/-- `SmartRetailScraper.fetch_page(url, max_retries)`: run the loop with
`retries = 0`, `last_error = None` and `max_retries + 1` available
iterations. -/
def fetchPage (pm : Option PMState) (autoRotate : Bool) (now : Nat)
    (draws draws2 : Nat → Nat) (maxRetries : Nat) (script : Nat → Outcome) :
    FetchTrace :=
  fetchLoop autoRotate now draws draws2 script (maxRetries + 1) pm 0 none

/-! ## Field lemmas for the feedback updates -/

theorem failUpdate_failures (maxF ct now : Nat) (c : Bool) (p : ProxyInfo) :
    (failUpdate maxF ct now c p).failures = p.failures + 1 := by
  cases c <;> simp [failUpdate] <;> split <;> rfl

theorem failUpdate_last_failure (maxF ct now : Nat) (c : Bool) (p : ProxyInfo) :
    (failUpdate maxF ct now c p).last_failure = some now := by
  cases c <;> simp [failUpdate] <;> split <;> rfl

theorem succUpdate_failures (p : ProxyInfo) :
    (succUpdate p).failures = p.failures - 1 := by
  by_cases h : 0 < p.failures <;> simp [succUpdate, h]
  omega

theorem succUpdate_is_working (p : ProxyInfo) : (succUpdate p).is_working = true := rfl

theorem succUpdate_blocked_until (p : ProxyInfo) : (succUpdate p).blocked_until = none := rfl

theorem markProxyFailed_maxFailures (m : PMState) (arg : Option Nat) (c : Bool) (now : Nat) :
    (markProxyFailed m arg c now).maxFailures = m.maxFailures := by
  unfold markProxyFailed
  cases resolveTarget m arg <;> rfl

theorem markProxyFailed_get?_self (m : PMState) (i : Nat) (c : Bool) (now : Nat)
    (p : ProxyInfo) (h : m.proxies.get? i = some p) :
    (markProxyFailed m (some i) c now).proxies.get? i =
      some (failUpdate m.maxFailures m.cooldownTime now c p) := by
  have hred : (markProxyFailed m (some i) c now).proxies
      = modifyIdx m.proxies i (failUpdate m.maxFailures m.cooldownTime now c) := rfl
  rw [hred, modifyIdx_get?, if_pos rfl, h]
  rfl

theorem markProxySuccess_get?_self (m : PMState) (i : Nat) (p : ProxyInfo)
    (h : m.proxies.get? i = some p) :
    (markProxySuccess m (some i)).proxies.get? i = some (succUpdate p) := by
  have hred : (markProxySuccess m (some i)).proxies = modifyIdx m.proxies i succUpdate := rfl
  rw [hred, modifyIdx_get?, if_pos rfl, h]
  rfl

theorem iterFail_spec (i now : Nat) :
    ∀ (N : Nat) (m : PMState) (p : ProxyInfo), m.proxies.get? i = some p →
      (iterFail N m i now).maxFailures = m.maxFailures ∧
      ∃ q, (iterFail N m i now).proxies.get? i = some q ∧ q.failures = p.failures + N := by
  intro N
  induction N with
  | zero => intro m p h; exact ⟨rfl, p, h, rfl⟩
  | succ N ih =>
    intro m p h
    have hstep := markProxyFailed_get?_self m i true now p h
    have hmax := markProxyFailed_maxFailures m (some i) true now
    rcases ih (markProxyFailed m (some i) true now) _ hstep with ⟨hmax2, q, hq, hfail⟩
    refine ⟨by rw [show iterFail (N + 1) m i now =
        iterFail N (markProxyFailed m (some i) true now) i now from rfl, hmax2, hmax], q, ?_, ?_⟩
    · exact hq
    · rw [hfail, failUpdate_failures]; omega

theorem iterSuccess_spec (i : Nat) :
    ∀ (k : Nat) (m : PMState) (p : ProxyInfo), m.proxies.get? i = some p →
      ∃ q, (iterSuccess k m i).proxies.get? i = some q ∧ q.failures = p.failures - k := by
  intro k
  induction k with
  | zero => intro m p h; exact ⟨p, h, rfl⟩
  | succ k ih =>
    intro m p h
    have hstep := markProxySuccess_get?_self m i p h
    rcases ih (markProxySuccess m (some i)) _ hstep with ⟨q, hq, hfail⟩
    refine ⟨q, hq, ?_⟩
    rw [hfail, succUpdate_failures]
    omega

theorem not_mem_getWorkingProxies_of_filter_false {m : PMState} {now : Nat} {p : ProxyInfo}
    (h : isWorkingFilter m.maxFailures now p = false) : p ∉ getWorkingProxies m now := by
  intro hmem
  rcases List.mem_filter.mp hmem with ⟨-, hp⟩
  rw [h] at hp
  exact Bool.false_ne_true hp

/-! ## Claim C2: the short-response boundary of `BlockDetector.is_blocked` -/

/-- C2: for a status-200 response on which no earlier rule fired (no
denylisted phrase occurs in the lowercased body; the status rule cannot fire
at 200), `BlockDetector.is_blocked` reports blocked with the short-response
reason exactly when the body is strictly shorter than 500 characters, and at
exactly 500 characters reports not blocked. -/
theorem c2_short_response_boundary (body : String)
    (hpat : ∀ pat ∈ BLOCK_PATTERNS, strContainsPat (lowerStr body) pat = false) :
    (body.length < 500 →
      isBlocked 200 body =
        (true, "Suspicious short response: " ++ toString body.length ++ " bytes"))
    ∧ (body.length = 500 → isBlocked 200 body = (false, "OK")) := by
  have hfind : BLOCK_PATTERNS.find? (fun pat => strContainsPat (lowerStr body) pat) = none := by
    rw [List.find?_eq_none]
    intro x hx
    simp [hpat x hx]
  constructor
  · intro hlen
    simp [isBlocked, BLOCK_STATUS_CODES, hfind, lowerStr_length, hlen]
  · intro hlen
    simp [isBlocked, BLOCK_STATUS_CODES, hfind, lowerStr_length, hlen]

/-- A 499-character body free of denylisted phrases. -/
def body499 : String := ⟨List.replicate 499 'a'⟩

/-- A 500-character body free of denylisted phrases. -/
def body500 : String := ⟨List.replicate 500 'a'⟩

set_option maxRecDepth 4000 in
/-- Witness for C2 at 499 and 500 characters. -/
theorem c2_short_response_boundary_witness :
    isBlocked 200 body499 =
      (true, "Suspicious short response: " ++ toString body499.length ++ " bytes")
    ∧ isBlocked 200 body500 = (false, "OK") :=
  ⟨(c2_short_response_boundary body499 (by decide)).1 (by decide),
   (c2_short_response_boundary body500 (by decide)).2 (by decide)⟩

/-! ## Claim C3: exclusions enforced by `get_working_proxies` -/

/-- C3: `get_working_proxies(now)` excludes every proxy whose `blocked_until`
lies strictly in the future (whatever its failure counter), and after N ≥
`max_failures` consecutive `mark_proxy_failed(proxy, cooldown=True)` calls on
one proxy, that proxy's failure counter is at or above the ceiling and the
proxy stays excluded from `get_working_proxies` at every time, until some
re-enabling action changes its state. -/
theorem c3_snapshot_exclusions :
    (∀ (m : PMState) (now t : Nat) (p : ProxyInfo),
      p.blocked_until = some t → now < t → p ∉ getWorkingProxies m now)
    ∧ (∀ (m : PMState) (i now N : Nat) (p : ProxyInfo),
        m.proxies.get? i = some p → m.maxFailures ≤ N →
        ∃ q, (iterFail N m i now).proxies.get? i = some q ∧
          (iterFail N m i now).maxFailures ≤ q.failures ∧
          ∀ t2, q ∉ getWorkingProxies (iterFail N m i now) t2) := by
  constructor
  · intro m now t p hbu hlt
    apply not_mem_getWorkingProxies_of_filter_false
    by_cases hf : m.maxFailures ≤ p.failures
    · simp [isWorkingFilter, hf]
    · simp [isWorkingFilter, hf, blockedUntilActive, hbu, hlt]
  · intro m i now N p hget hceil
    rcases iterFail_spec i now N m p hget with ⟨hmax, q, hq, hfail⟩
    refine ⟨q, hq, ?_, ?_⟩
    · rw [hmax, hfail]; omega
    · intro t2
      apply not_mem_getWorkingProxies_of_filter_false
      have : (iterFail N m i now).maxFailures ≤ q.failures := by rw [hmax, hfail]; omega
      simp [isWorkingFilter, this]

/-- Witness for C3: a proxy in cooldown until time 10 is excluded at time 5
even with zero failures, and a fresh proxy hit by 3 consecutive failures under
ceiling 3 is excluded afterwards. -/
theorem c3_snapshot_exclusions_witness :
    (⟨"u", "http", 0, none, none, 0, true, some 10⟩ : ProxyInfo) ∉
      getWorkingProxies ⟨[⟨"u", "http", 0, none, none, 0, true, some 10⟩], 3, 300, none, false⟩ 5
    ∧ ∃ q, (iterFail 3 ⟨[mkProxyInfo "http://a"], 3, 300, none, false⟩ 0 7).proxies.get? 0 = some q ∧
        (iterFail 3 ⟨[mkProxyInfo "http://a"], 3, 300, none, false⟩ 0 7).maxFailures ≤ q.failures ∧
        ∀ t2, q ∉ getWorkingProxies (iterFail 3 ⟨[mkProxyInfo "http://a"], 3, 300, none, false⟩ 0 7) t2 :=
  ⟨c3_snapshot_exclusions.1 _ 5 10 _ rfl (by decide),
   c3_snapshot_exclusions.2 ⟨[mkProxyInfo "http://a"], 3, 300, none, false⟩ 0 7 3 _ rfl (by decide)⟩

/-! ## Claim C4: `mark_proxy_success` field updates -/

/-- C4: `mark_proxy_success` on the proxy at index i sets the failure counter
to max(0, counter − 1) — one success decrements a positive counter by exactly
one and never drives it below zero — sets `is_working`, clears
`blocked_until`, and k repeated successes leave the counter at counter − k
truncated at zero (convergence to 0, never below). -/
theorem c4_success_decrement (m : PMState) (i : Nat) (p : ProxyInfo)
    (h : m.proxies.get? i = some p) :
    (∃ q, (markProxySuccess m (some i)).proxies.get? i = some q ∧
      (q.failures : ℤ) = max 0 ((p.failures : ℤ) - 1) ∧
      q.is_working = true ∧ q.blocked_until = none ∧
      (0 < p.failures → q.failures + 1 = p.failures))
    ∧ ∀ k, ∃ q, (iterSuccess k m i).proxies.get? i = some q ∧
        q.failures = p.failures - k := by
  constructor
  · refine ⟨succUpdate p, markProxySuccess_get?_self m i p h, ?_, succUpdate_is_working p,
      succUpdate_blocked_until p, ?_⟩
    · rw [succUpdate_failures]
      rcases Nat.eq_zero_or_pos p.failures with h0 | h0
      · simp [h0]
      · rw [Nat.cast_sub (by omega)]
        simp
        omega
    · intro hpos
      rw [succUpdate_failures]
      omega
  · intro k
    exact iterSuccess_spec i k m p h

/-- Witness for C4 on a proxy with 2 recorded failures. -/
theorem c4_success_decrement_witness :
    (∃ q, (markProxySuccess ⟨[⟨"u", "http", 2, none, none, 0, false, some 9⟩], 3, 300, none, false⟩
        (some 0)).proxies.get? 0 = some q ∧
      (q.failures : ℤ) = max 0 ((2 : ℤ) - 1) ∧
      q.is_working = true ∧ q.blocked_until = none ∧
      (0 < 2 → q.failures + 1 = 2))
    ∧ ∀ k, ∃ q, (iterSuccess k ⟨[⟨"u", "http", 2, none, none, 0, false, some 9⟩], 3, 300, none, false⟩
        0).proxies.get? 0 = some q ∧ q.failures = 2 - k :=
  c4_success_decrement ⟨[⟨"u", "http", 2, none, none, 0, false, some 9⟩], 3, 300, none, false⟩ 0
    ⟨"u", "http", 2, none, none, 0, false, some 9⟩ rfl

/-! ## Claim C8: the Block Detector is pure and deterministic -/

/-- C8: `BlockDetector.is_blocked` is modelled as a pure function of the
response — it takes no registry or scraper state and returns none, so it
mutates nothing — and it is deterministic: two responses agreeing on status
code and body text (the only fields it reads; they determine the content
length) classify identically, whatever their other fields such as the elapsed
time. -/
theorem c8_detector_deterministic (r1 r2 : HttpResponse)
    (hs : r1.status = r2.status) (hb : r1.body = r2.body) :
    isBlockedResp r1 = isBlockedResp r2 := by
  simp [isBlockedResp, hs, hb]

/-- Witness for C8: two responses equal up to elapsed time classify
identically. -/
theorem c8_detector_deterministic_witness :
    isBlockedResp ⟨200, "a tiny page", 5⟩ = isBlockedResp ⟨200, "a tiny page", 99⟩ :=
  c8_detector_deterministic ⟨200, "a tiny page", 5⟩ ⟨200, "a tiny page", 99⟩ rfl rfl

/-! ## Claim C10: feedback with no argument and no current proxy is a no-op -/

/-- C10: `mark_proxy_failed()` and `mark_proxy_success()` called without an
explicit proxy while `current_proxy` is unset return with the manager state
(pool, counters, configuration) entirely unchanged. -/
theorem c10_feedback_noop (m : PMState) (c : Bool) (now : Nat)
    (h : m.currentProxy = none) :
    markProxyFailed m none c now = m ∧ markProxySuccess m none = m := by
  constructor <;> simp [markProxyFailed, markProxySuccess, resolveTarget, h]

/-- Witness for C10 on a one-proxy manager with no current proxy. -/
theorem c10_feedback_noop_witness :
    markProxyFailed ⟨[mkProxyInfo "http://a"], 3, 300, none, false⟩ none true 0 =
      ⟨[mkProxyInfo "http://a"], 3, 300, none, false⟩
    ∧ markProxySuccess ⟨[mkProxyInfo "http://a"], 3, 300, none, false⟩ none =
      ⟨[mkProxyInfo "http://a"], 3, 300, none, false⟩ :=
  c10_feedback_noop ⟨[mkProxyInfo "http://a"], 3, 300, none, false⟩ true 0 rfl

/-! ## Claim C7: selection over empty and singleton healthy snapshots -/

theorem workingIdx_eq_nil_of_empty {m : PMState} {now : Nat}
    (h : getWorkingProxies m now = []) : workingIdx m now = [] := by
  have hsnd := healthyPairs_map_snd m.maxFailures now m.proxies 0
  rw [show List.filter (isWorkingFilter m.maxFailures now) m.proxies
      = getWorkingProxies m now from rfl, h] at hsnd
  have : healthyPairs m.maxFailures now m.proxies 0 = [] := List.map_eq_nil_iff.mp hsnd
  simp [workingIdx, this]

theorem healthyPairs_singleton {m : PMState} {now : Nat} {p : ProxyInfo}
    (h : getWorkingProxies m now = [p]) :
    ∃ j, healthyPairs m.maxFailures now m.proxies 0 = [(j, p)] := by
  have hsnd := healthyPairs_map_snd m.maxFailures now m.proxies 0
  rw [show List.filter (isWorkingFilter m.maxFailures now) m.proxies
      = getWorkingProxies m now from rfl, h] at hsnd
  rcases hpairs : healthyPairs m.maxFailures now m.proxies 0 with - | ⟨a, rest⟩
  · rw [hpairs] at hsnd; simp at hsnd
  · rw [hpairs] at hsnd
    simp only [List.map_cons, List.cons.injEq, List.map_eq_nil_iff] at hsnd
    rcases hsnd with ⟨ha, hrest⟩
    refine ⟨a.1, ?_⟩
    rw [hrest]
    cases a
    simp at ha
    simp [ha]

/-- C7: when the healthy snapshot is empty, `get_next_proxy` returns none for
every random draw; when the healthy snapshot is exactly one proxy,
`get_next_proxy` returns that proxy for every random draw (the drawn index
points at it in the pool). -/
theorem c7_weighted_select (m : PMState) (now : Nat) :
    (getWorkingProxies m now = [] → ∀ draw, (getNextProxy m now draw).1 = none)
    ∧ (∀ p, getWorkingProxies m now = [p] → ∀ draw,
        ∃ j, (getNextProxy m now draw).1 = some j ∧ m.proxies.get? j = some p) := by
  constructor
  · intro h draw
    have hw := workingIdx_eq_nil_of_empty h
    simp [getNextProxy, hw]
  · intro p h draw
    rcases healthyPairs_singleton h with ⟨j, hpairs⟩
    have hw : workingIdx m now = [j] := by simp [workingIdx, hpairs]
    have hget : m.proxies.get? j = some p := by
      have hmem : (j, p) ∈ healthyPairs m.maxFailures now m.proxies 0 := by
        rw [hpairs]; exact List.mem_singleton.mpr rfl
      simpa using (healthyPairs_mem_get? m.maxFailures now m.proxies 0 j p hmem).2
    refine ⟨j, ?_, hget⟩
    simp [getNextProxy, hw, Nat.mod_one]

/-- Witness for C7: a pool whose only proxy is in cooldown yields no
selection at time 0; a pool with one fresh proxy is always selected, here at
draw 12345. -/
theorem c7_weighted_select_witness :
    (getNextProxy ⟨[⟨"u", "http", 0, none, none, 0, true, some 10⟩], 3, 300, none, false⟩ 0 12345).1
        = none
    ∧ ∃ j, (getNextProxy ⟨[mkProxyInfo "http://a"], 3, 300, none, false⟩ 0 12345).1 = some j ∧
        (⟨[mkProxyInfo "http://a"], 3, 300, none, false⟩ : PMState).proxies.get? j =
          some (mkProxyInfo "http://a") :=
  ⟨(c7_weighted_select ⟨[⟨"u", "http", 0, none, none, 0, true, some 10⟩], 3, 300, none, false⟩ 0).1
      (by decide) 12345,
   (c7_weighted_select ⟨[mkProxyInfo "http://a"], 3, 300, none, false⟩ 0).2
      (mkProxyInfo "http://a") (by decide) 12345⟩

/-! ## Lemmas about the retry loop -/

theorem fetchLoop_attempts_le (autoRotate : Bool) (now : Nat) (draws draws2 : Nat → Nat)
    (script : Nat → Outcome) :
    ∀ (fuel : Nat) (pm : Option PMState) (a : Nat) (e : Option String),
      (fetchLoop autoRotate now draws draws2 script fuel pm a e).attempts ≤ a + fuel := by
  intro fuel
  induction fuel with
  | zero => intro pm a e; simp [fetchLoop]
  | succ fuel ih =>
    intro pm a e
    simp only [fetchLoop]
    cases hstep : fetchStep autoRotate now (draws a) (draws2 a) (script a) pm e with
    | halt r pm1 => simp
    | next pm1 e1 => exact le_trans (ih pm1 (a + 1) e1) (by omega)

theorem fetchStep_exc (autoRotate : Bool) (now d1 d2 : Nat) (msg : String)
    (pm : Option PMState) (e : Option String) :
    ∃ pm1, fetchStep autoRotate now d1 d2 (.exc msg) pm e = .next pm1 (some msg) :=
  ⟨_, rfl⟩

theorem fetchLoop_exc_result (autoRotate : Bool) (now : Nat) (draws draws2 : Nat → Nat)
    (msg : String) :
    ∀ (fuel : Nat) (pm : Option PMState) (a : Nat) (e : Option String), 1 ≤ fuel →
      (fetchLoop autoRotate now draws draws2 (fun _ => Outcome.exc msg) fuel pm a e).result
        = FetchResult.failure (FailReason.retriesExhausted (some msg)) := by
  intro fuel
  induction fuel with
  | zero => intro pm a e h; omega
  | succ fuel ih =>
    intro pm a e _
    simp only [fetchLoop]
    rcases fetchStep_exc autoRotate now (draws a) (draws2 a) msg pm e with ⟨pm1, hstep⟩
    rw [hstep]
    rcases Nat.eq_zero_or_pos fuel with h0 | h0
    · subst h0; simp [fetchLoop]
    · exact ih pm1 (a + 1) (some msg) h0

/-! ## Claim C6: the retry loop is finitely bounded -/

theorem fetchLoop_blocked_noPM_result (autoRotate : Bool) (now : Nat)
    (draws draws2 : Nat → Nat) (body : String) :
    ∀ (fuel a : Nat) (e : Option String),
      (fetchLoop autoRotate now draws draws2 (fun _ => Outcome.resp 429 body) fuel none a e).result
        = FetchResult.failure (FailReason.retriesExhausted e) := by
  intro fuel
  induction fuel with
  | zero => intro a e; simp [fetchLoop]
  | succ fuel ih =>
    intro a e
    have hblk : checkIfBlocked 429 body = true := by simp [checkIfBlocked]
    have hstep : fetchStep autoRotate now (draws a) (draws2 a) (.resp 429 body) none e
        = .next none e := by
      simp [fetchStep, hblk, blockedBranch, selectPM]
    simp only [fetchLoop, hstep]
    exact ih (a + 1) e

/-- Counterexample to C6 as stated: the source's blocked branch never assigns
`last_error`, so a run whose every attempt is a blocked response (here
status 429 with `max_retries = 3` and no proxy manager, the spec's all-429
scenario) exceeds the retry budget — 4 attempts — yet its terminal failure
carries no error or block reason at all (`last_error` is still `None`). -/
theorem c6_reason_counterexample :
    (fetchPage none true 0 (fun _ => 0) (fun _ => 0) 3
        (fun _ => Outcome.resp 429 "too many requests")).attempts = 4
    ∧ (fetchPage none true 0 (fun _ => 0) (fun _ => 0) 3
        (fun _ => Outcome.resp 429 "too many requests")).result
      = FetchResult.failure (FailReason.retriesExhausted none) := by
  decide

/-- C6 amended: every `fetch_page` call makes at most `max_retries + 1`
network attempts and terminates (the model is a total function on bounded
fuel, mirroring the `while retries <= max_retries` loop in which every
non-returning path increments `retries` once). A budget-exhausting execution
returns the terminal retries-exhausted failure carrying the `last_error`
variable: an execution whose every attempt errors (here: raises with message
`msg`) carries that last observed error, but blocked responses never update
`last_error`, so an execution whose every attempt is blocked (here: status
429 without a proxy manager) exhausts the budget carrying no reason. -/
theorem c6_retry_budget_amended (pm : Option PMState) (autoRotate : Bool) (now : Nat)
    (draws draws2 : Nat → Nat) (maxRetries : Nat) (script : Nat → Outcome)
    (msg body : String) :
    (fetchPage pm autoRotate now draws draws2 maxRetries script).attempts ≤ maxRetries + 1
    ∧ (fetchPage pm autoRotate now draws draws2 maxRetries (fun _ => Outcome.exc msg)).result
        = FetchResult.failure (FailReason.retriesExhausted (some msg))
    ∧ (fetchPage none autoRotate now draws draws2 maxRetries (fun _ => Outcome.resp 429 body)).result
        = FetchResult.failure (FailReason.retriesExhausted none) :=
  ⟨by simpa using fetchLoop_attempts_le autoRotate now draws draws2 script (maxRetries + 1) pm 0 none,
   fetchLoop_exc_result autoRotate now draws draws2 msg (maxRetries + 1) pm 0 none (by omega),
   fetchLoop_blocked_noPM_result autoRotate now draws draws2 body (maxRetries + 1) 0 none⟩

/-! ## Claim C5: HTTP 404 is immediately terminal -/

theorem fetchStep_resp_404 (autoRotate : Bool) (now d1 d2 : Nat) (body : String)
    (pm : Option PMState) (e : Option String) (hnb : checkIfBlocked 404 body = false) :
    fetchStep autoRotate now d1 d2 (.resp 404 body) pm e
      = .halt (.failure .notFound) (selectPM pm now d1) := by
  simp [fetchStep, hnb]

/-- C5: when the first attempt of a `fetch_page` call receives an HTTP 404
response that `_check_if_blocked` does not classify as blocked, the call
returns the not-found terminal failure after exactly one network attempt —
no retry happens, and the blocked path is not taken. -/
theorem c5_notfound_terminal (pm : Option PMState) (autoRotate : Bool) (now : Nat)
    (draws draws2 : Nat → Nat) (maxRetries : Nat) (script : Nat → Outcome) (body : String)
    (h0 : script 0 = Outcome.resp 404 body) (hnb : checkIfBlocked 404 body = false) :
    (fetchPage pm autoRotate now draws draws2 maxRetries script).result
        = FetchResult.failure FailReason.notFound
    ∧ (fetchPage pm autoRotate now draws draws2 maxRetries script).attempts = 1 := by
  have hstep := fetchStep_resp_404 autoRotate now (draws 0) (draws2 0) body pm none hnb
  constructor <;>
    · simp only [fetchPage, fetchLoop, h0, hstep]

/-- Witness for C5: a proxy-less scraper fetching a missing page. -/
theorem c5_notfound_terminal_witness :
    (fetchPage none true 0 (fun _ => 0) (fun _ => 0) 3
        (fun _ => Outcome.resp 404 "page not found")).result
      = FetchResult.failure FailReason.notFound
    ∧ (fetchPage none true 0 (fun _ => 0) (fun _ => 0) 3
        (fun _ => Outcome.resp 404 "page not found")).attempts = 1 :=
  c5_notfound_terminal none true 0 (fun _ => 0) (fun _ => 0) 3
    (fun _ => Outcome.resp 404 "page not found") "page not found" rfl (by decide)

/-! ## Claim C9: a 404 leaves every endpoint's health fields untouched -/

/-- The health fields named by the frame condition: failure counter,
`is_working`, `blocked_until`, `last_failure` (selection legitimately stamps
`last_used`, which is not a health field). -/
def healthView (p : ProxyInfo) : Nat × Bool × Option Nat × Option Nat :=
  (p.failures, p.is_working, p.blocked_until, p.last_failure)

theorem getNextProxy_healthView (m : PMState) (now d i : Nat) :
    ((getNextProxy m now d).2.proxies.get? i).map healthView
      = (m.proxies.get? i).map healthView := by
  unfold getNextProxy
  cases hj : (workingIdx m now).get? (d % (workingIdx m now).length) with
  | none => simp only [hj]
  | some j =>
    simp only [hj]
    rw [modifyIdx_get?]
    by_cases hij : i = j
    · subst hij
      rw [if_pos rfl]
      cases m.proxies.get? i <;> simp [healthView]
    · rw [if_neg hij]

/-- C9: when the first attempt of a `fetch_page` call with a proxy manager
receives an HTTP 404 that `_check_if_blocked` does not classify as blocked,
the final manager state preserves every endpoint's failure counter,
`is_working`, `blocked_until` and `last_failure` exactly — no failure is
recorded; by contrast (second conjunct, a concrete run) another non-200,
non-block status such as 500 does record a failure on the selected
endpoint. -/
theorem c9_notfound_frame (m : PMState) (autoRotate : Bool) (now : Nat)
    (draws draws2 : Nat → Nat) (maxRetries : Nat) (script : Nat → Outcome) (body : String)
    (h0 : script 0 = Outcome.resp 404 body) (hnb : checkIfBlocked 404 body = false) :
    (∃ m1, (fetchPage (some m) autoRotate now draws draws2 maxRetries script).pm = some m1 ∧
      ∀ i, (m1.proxies.get? i).map healthView = (m.proxies.get? i).map healthView)
    ∧ fetchPage (some ⟨[mkProxyInfo "http://a"], 3, 300, none, false⟩) true 7 (fun _ => 0)
        (fun _ => 0) 0 (fun _ => Outcome.resp 500 "x")
      = ⟨FetchResult.failure (FailReason.retriesExhausted (some "Status 500")), 1,
         some ⟨[⟨"http://a", "http", 1, some 7, some 7, 0, true, some 307⟩], 3, 300, some 0, false⟩⟩ := by
  constructor
  · have hstep := fetchStep_resp_404 autoRotate now (draws 0) (draws2 0) body (some m) none hnb
    refine ⟨(getNextProxy m now (draws 0)).2, ?_, fun i => getNextProxy_healthView m now (draws 0) i⟩
    simp only [fetchPage, fetchLoop, h0, hstep, selectPM]
  · decide

/-- Witness for C9: one-proxy manager, 404 on the first attempt. -/
theorem c9_notfound_frame_witness :
    (∃ m1, (fetchPage (some ⟨[mkProxyInfo "http://a"], 3, 300, none, false⟩) true 7 (fun _ => 0)
        (fun _ => 0) 3 (fun _ => Outcome.resp 404 "gone")).pm = some m1 ∧
      ∀ i, (m1.proxies.get? i).map healthView =
        ((⟨[mkProxyInfo "http://a"], 3, 300, none, false⟩ : PMState).proxies.get? i).map healthView)
    ∧ fetchPage (some ⟨[mkProxyInfo "http://a"], 3, 300, none, false⟩) true 7 (fun _ => 0)
        (fun _ => 0) 0 (fun _ => Outcome.resp 500 "x")
      = ⟨FetchResult.failure (FailReason.retriesExhausted (some "Status 500")), 1,
         some ⟨[⟨"http://a", "http", 1, some 7, some 7, 0, true, some 307⟩], 3, 300, some 0, false⟩⟩ :=
  c9_notfound_frame ⟨[mkProxyInfo "http://a"], 3, 300, none, false⟩ true 7 (fun _ => 0)
    (fun _ => 0) 3 (fun _ => Outcome.resp 404 "gone") "gone" rfl (by decide)

/-! ## Claim C1: behaviour of `fetch_page` on an exhausted pool -/

/-- Counterexample to C1 as stated: with an empty proxy pool the first
selection returns none, yet `fetch_page` does not terminate with a
pool-exhaustion failure and zero network calls — it proceeds with a direct
connection, makes one network call, and here returns the page body. -/
theorem c1_pool_exhaustion_counterexample :
    (fetchPage (some ⟨[], 3, 300, none, false⟩) true 0 (fun _ => 0) (fun _ => 0) 3
        (fun _ => Outcome.resp 200 "welcome to the catalog")).attempts = 1
    ∧ (fetchPage (some ⟨[], 3, 300, none, false⟩) true 0 (fun _ => 0) (fun _ => 0) 3
        (fun _ => Outcome.resp 200 "welcome to the catalog")).result
      = FetchResult.success "welcome to the catalog" := by
  decide

/-- C1 amended: when the healthy pool is empty (and no current endpoint is
set), `fetch_page` does not fail immediately — it falls back to a direct
connection and performs the network call: a blocked response then triggers
`handle_block`, whose re-selection finds no working proxy, and only then does
the fetch terminate with the no-working-proxies failure after exactly one
network call; a non-blocked 200 response instead succeeds on that single
direct-connection call. -/
theorem c1_pool_exhaustion_amended (m : PMState) (now maxRetries : Nat)
    (draws draws2 : Nat → Nat) (bodyB bodyO : String)
    (h1 : getWorkingProxies m now = []) (h2 : m.currentProxy = none)
    (hb : checkIfBlocked 200 bodyO = false) :
    fetchPage (some m) true now draws draws2 maxRetries (fun _ => Outcome.resp 403 bodyB)
      = ⟨FetchResult.failure FailReason.noWorkingProxies, 1, some m⟩
    ∧ fetchPage (some m) true now draws draws2 maxRetries (fun _ => Outcome.resp 200 bodyO)
      = ⟨FetchResult.success bodyO, 1, some m⟩ := by
  have hw := workingIdx_eq_nil_of_empty h1
  have hsel : ∀ d, getNextProxy m now d = (none, m) := by
    intro d
    simp [getNextProxy, hw]
  have hblk : checkIfBlocked 403 bodyB = true := by simp [checkIfBlocked]
  have hmps : markProxySuccess m none = m := by
    simp [markProxySuccess, resolveTarget, h2]
  constructor
  · simp only [fetchPage, fetchLoop, fetchStep, hblk, if_pos, selectPM, hsel,
      blockedBranch, handleBlock, h2, if_true]
  · simp only [fetchPage, fetchLoop, fetchStep, hb, selectPM, hsel, hmps,
      Bool.false_eq_true, if_false, if_pos, Option.map_some]
    simp
    exact hmps

/-- Witness for the amended C1 on a concrete empty pool. -/
theorem c1_pool_exhaustion_amended_witness :
    fetchPage (some ⟨[], 3, 300, none, false⟩) true 0 (fun _ => 0) (fun _ => 0) 3
        (fun _ => Outcome.resp 403 "denied")
      = ⟨FetchResult.failure FailReason.noWorkingProxies, 1, some ⟨[], 3, 300, none, false⟩⟩
    ∧ fetchPage (some ⟨[], 3, 300, none, false⟩) true 0 (fun _ => 0) (fun _ => 0) 3
        (fun _ => Outcome.resp 200 "hello")
      = ⟨FetchResult.success "hello", 1, some ⟨[], 3, 300, none, false⟩⟩ :=
  c1_pool_exhaustion_amended ⟨[], 3, 300, none, false⟩ 0 3 (fun _ => 0) (fun _ => 0)
    "denied" "hello" rfl rfl (by decide)
